import Mathlib

/-!
Verification of the agentic search service
(`backend/api/services/agents/search/agentic_search_service.py` and
`backend/api/agents/agentic_search/models.py`).

Python strings are modelled as Lean `String`s; Python `len`, slicing and
concatenation act on code points, which coincides with the `data : List Char`
view of a Lean `String`.  Python `dict`s that the service builds with fixed
keys are modelled as structures with those keys as fields.  Provider calls
(Gemini) are modelled as oracles: an `Env` record supplies the value each
call site would produce, with `Option` capturing the `try/except` paths in
which a call raises.
-/

/-! ## Data model and operations -/

/-- The `segment_info` dict built by `_extract_sources_from_response`:
`{text, start_index, end_index, source_indices}`. -/
structure GroundingSupport where
  text : String
  start_index : Nat
  end_index : Nat
  source_indices : List Nat
deriving DecidableEq

/-- Source dict appended to `sources_gathered` by
`_extract_sources_from_response`:
`{title, url, snippet, chunk_index, supported_segments_count, supported_segments}`. -/
structure Source where
  title : String
  url : String
  snippet : String
  chunk_index : Nat
  supported_segments_count : Nat
  supported_segments : List String
deriving DecidableEq

/-- Python `s.startswith(p)` on code points. -/
def pyStartsWith (s p : String) : Bool :=
  p.data.isPrefixOf s.data

/-- Python `text[:n] + ins + text[n:]` (slicing clamps, insertion never
replaces existing characters). -/
def spliceAt (text : String) (n : Nat) (ins : String) : String :=
  String.mk (text.data.take n ++ ins.data ++ text.data.drop n)

/-- One entry of the `citation_links` list of `_add_inline_citations`: for a
`source_indices` entry `i`, the loop body runs only under `i < len(sources)`;
inside it builds `[i+1](url)` for a valid http(s) URL and the bare `[i+1]`
otherwise.  An out-of-range `i` contributes nothing. -/
def citationMarker (sources : List Source) (i : Nat) : Option String :=
  if h : i < sources.length then
    let uri := (sources.get ⟨i, h⟩).url
    if uri ≠ "" ∧ (pyStartsWith uri "http://" ∨ pyStartsWith uri "https://") then
      some ("[" ++ Nat.repr (i + 1) ++ "](" ++ uri ++ ")")
    else
      some ("[" ++ Nat.repr (i + 1) ++ "]")
  else
    none

/-- Body of the `for support in sorted_supports` loop of
`_add_inline_citations`, acting on the running `text_with_citations`. -/
def citeStep (sources : List Source) (text : String) (support : GroundingSupport) : String :=
  if support.source_indices ≠ [] ∧ support.end_index ≤ text.data.length then
    let citation_links := support.source_indices.filterMap (citationMarker sources)
    if citation_links ≠ [] then
      spliceAt text support.end_index (String.intercalate ", " citation_links)
    else
      text
  else
    text

/-- Stable insertion used to model Python
`sorted(grounding_supports, key=lambda s: s.get("end_index", 0), reverse=True)`:
a later element is placed after every earlier element with the same or a
larger `end_index`.  Folding `insertByEndIndexDesc` from the right is the
unique stable descending order, hence extensionally Python's `sorted`. -/
def insertByEndIndexDesc (s : GroundingSupport) :
    List GroundingSupport → List GroundingSupport
  | [] => [s]
  | t :: ts =>
    if t.end_index ≤ s.end_index then s :: t :: ts
    else t :: insertByEndIndexDesc s ts

/-- The `sorted_supports` list of `_add_inline_citations`. -/
def sortSupports (supports : List GroundingSupport) : List GroundingSupport :=
  supports.foldr insertByEndIndexDesc []

/-- Model of `_add_inline_citations(text, grounding_supports, sources)`. -/
def addInlineCitations (text : String) (grounding_supports : List GroundingSupport)
    (sources : List Source) : String :=
  if text = "" ∨ grounding_supports = [] then text
  else (sortSupports grounding_supports).foldl (citeStep sources) text

/-- Marker rule as the claim words it: a bare `[i+1]` marker is built whenever
the `[i+1](url)` case does not apply, including for an `i` that is not a valid
index into the source list. -/
def citationMarkerClaimed (sources : List Source) (i : Nat) : String :=
  if h : i < sources.length then
    let uri := (sources.get ⟨i, h⟩).url
    if pyStartsWith uri "http://" ∨ pyStartsWith uri "https://" then
      "[" ++ Nat.repr (i + 1) ++ "](" ++ uri ++ ")"
    else
      "[" ++ Nat.repr (i + 1) ++ "]"
  else
    "[" ++ Nat.repr (i + 1) ++ "]"

/-- Per-support step as the claim words it: build one marker per
`source_indices` entry, join with `", "` and insert at `end_index`. -/
def citeStepClaimed (sources : List Source) (text : String)
    (support : GroundingSupport) : String :=
  spliceAt text support.end_index
    (String.intercalate ", " (support.source_indices.map (citationMarkerClaimed sources)))

/-- The inline-citation composer as claim C1 words it. -/
def addInlineCitationsClaimed (text : String) (grounding_supports : List GroundingSupport)
    (sources : List Source) : String :=
  if text = "" ∨ grounding_supports = [] then text
  else (sortSupports grounding_supports).foldl (citeStepClaimed sources) text

/-- Per-support step as amended: an out-of-range index contributes no marker,
and a support inserts only when its `source_indices` list is non-empty and its
`end_index` is within the current text. -/
def citeStepAmended (sources : List Source) (text : String)
    (support : GroundingSupport) : String :=
  if support.source_indices ≠ [] ∧ support.end_index ≤ text.data.length then
    spliceAt text support.end_index
      (String.intercalate ", " (support.source_indices.filterMap (citationMarker sources)))
  else
    text

/-- The inline-citation composer as claim C1 reads once amended. -/
def addInlineCitationsAmended (text : String) (grounding_supports : List GroundingSupport)
    (sources : List Source) : String :=
  if text = "" ∨ grounding_supports = [] then text
  else (sortSupports grounding_supports).foldl (citeStepAmended sources) text

/-- The `chunk.web` payload: `GroundingChunkWeb` with `uri`, `title` and (as the
code probes with `hasattr`) a `snippet`; an absent/falsy string attribute is
modelled as `""`. -/
structure WebInfo where
  uri : String
  title : String
  snippet : String
deriving DecidableEq

/-- One grounding chunk: `chunk.web` is `None` for a chunk with no web
reference; `chunk.content` (probed with `hasattr`) is `""` when absent. -/
structure Chunk where
  web : Option WebInfo
  content : String
deriving DecidableEq

/-- The `support.segment` field of the provider response. -/
structure Segment where
  text : String
  start_index : Nat
  end_index : Nat
deriving DecidableEq

/-- One raw grounding support of the provider response. -/
structure RawSupport where
  segment : Segment
  grounding_chunk_indices : List Nat
deriving DecidableEq

/-- The `candidates[0].grounding_metadata` payload.  The `webSearchQueries` camel-case
alias probed by the code is the same datum, so a single field models both. -/
structure GroundingMetadata where
  grounding_supports : List RawSupport
  grounding_chunks : List Chunk
  web_search_queries : List String
deriving DecidableEq

/-- One response candidate; only `grounding_metadata` is read. -/
structure Candidate where
  grounding_metadata : Option GroundingMetadata
deriving DecidableEq

/-- A Gemini `generate_content` response as the extraction step reads it. -/
structure GeminiResponse where
  text : String
  candidates : List Candidate
deriving DecidableEq

/-- The guard `response.candidates and response.candidates[0].grounding_metadata`:
the metadata actually used, if any. -/
def responseMetadata (r : GeminiResponse) : Option GroundingMetadata :=
  match r.candidates with
  | [] => none
  | c :: _ => c.grounding_metadata

/-- Body of the `for support in supports` loop: the `segment_info` dict.
`list(support.grounding_chunk_indices) if support.grounding_chunk_indices
else []` is the list itself in both cases. -/
def toGroundingSupport (s : RawSupport) : GroundingSupport :=
  ⟨s.segment.text, s.segment.start_index, s.segment.end_index, s.grounding_chunk_indices⟩

/-- Body of the `for i, chunk in enumerate(chunks)` loop for a chunk whose
`web` attribute is truthy. -/
def mkChunkSource (supports : List GroundingSupport) (i : Nat) (w : WebInfo) (c : Chunk) :
    Source :=
  let url := w.uri
  let title := if w.title ≠ "" then w.title else "Source " ++ Nat.repr (i + 1)
  let content := if c.content ≠ "" then c.content else w.snippet
  let supported_segments := supports.filter (fun seg => i ∈ seg.source_indices)
  { title := title
    url := url
    snippet := if content ≠ "" then content else title
    chunk_index := i
    supported_segments_count := supported_segments.length
    supported_segments := (supported_segments.take 3).map (fun seg => seg.text) }

/-- The `for i, chunk in enumerate(chunks)` loop building `sources_gathered`:
a chunk without a web reference is skipped but still consumes its index. -/
def extractChunkSources (supports : List GroundingSupport) : Nat → List Chunk → List Source
  | _, [] => []
  | i, c :: rest =>
    match c.web with
    | none => extractChunkSources supports (i + 1) rest
    | some w => mkChunkSource supports i w c :: extractChunkSources supports (i + 1) rest

/-- Return value of `_extract_sources_from_response`. -/
structure ExtractionResult where
  sources : List Source
  search_queries : List String
  grounding_supports : List GroundingSupport
  response_text : String
  text_with_citations : String
deriving DecidableEq

/-- Model of `_extract_sources_from_response(response)`.  `response_text` is set from
`response.text` only inside the grounding-metadata branch; the citation
composer is applied unconditionally at the end. -/
def extractSourcesFromResponse (r : GeminiResponse) : ExtractionResult :=
  match responseMetadata r with
  | none =>
    { sources := []
      search_queries := []
      grounding_supports := []
      response_text := ""
      text_with_citations := addInlineCitations "" [] [] }
  | some md =>
    let response_text := if r.text ≠ "" then r.text else ""
    let grounding_supports := md.grounding_supports.map toGroundingSupport
    let sources_gathered := extractChunkSources grounding_supports 0 md.grounding_chunks
    { sources := sources_gathered
      search_queries := md.web_search_queries
      grounding_supports := grounding_supports
      response_text := response_text
      text_with_citations := addInlineCitations response_text grounding_supports sources_gathered }

/-- Concrete response whose first grounding chunk has no web reference while a
grounding support cites chunk index 1: the source list then has length 1 and
the recorded index 1 is out of range. -/
def respChunkSkip : GeminiResponse :=
  ⟨"ab", [⟨some ⟨[⟨⟨"t", 0, 1⟩, [1]⟩],
            [⟨none, ""⟩, ⟨some ⟨"https://x", "T", "s"⟩, ""⟩], []⟩⟩]⟩

/-- Concrete all-web response for the witness of `extraction_source_indices_valid`. -/
def respAllWeb : GeminiResponse :=
  ⟨"ab", [⟨some ⟨[⟨⟨"t", 0, 1⟩, [0]⟩],
            [⟨some ⟨"https://x", "T", "s"⟩, ""⟩], []⟩⟩]⟩

/-- One `self.depth_configs` entry. -/
structure DepthProfile where
  max_iterations : Nat
  number_of_initial_queries : Nat
deriving DecidableEq

/-- The `self.depth_configs` table; indexing with an unknown key raises `KeyError`. -/
def depthConfigs : String → Option DepthProfile
  | "quick" => some ⟨1, 2⟩
  | "standard" => some ⟨2, 3⟩
  | "deep" => some ⟨3, 5⟩
  | _ => none

/-- Result dict of `_reflection` (the structured-output path and the internal
fallback produce the same shape). -/
structure ReflectionResult where
  is_sufficient : Bool
  knowledge_gap : String
  follow_up_queries : List String
deriving DecidableEq

/-- Model of the `except` fallback of `_reflection`:
`is_sufficient = iteration_count >= 2 or len(summaries) >= 3`, and a single
generic follow-up query `f"{research_topic} additional details"` unless
`iteration_count >= 2`. -/
def reflectionFallback (research_topic : String) (summaries : List String)
    (iteration_count : Nat) : ReflectionResult :=
  { is_sufficient := decide (2 ≤ iteration_count) || decide (3 ≤ summaries.length)
    knowledge_gap :=
      if 2 ≤ iteration_count then "" else "Need more comprehensive information"
    follow_up_queries :=
      if 2 ≤ iteration_count then []
      else [research_topic ++ " additional details"] }

/-- Return dict of `_web_research` on success, built from the extraction
result; `summary` is `text_with_citations or response.text`. -/
structure ResearchOutput where
  summary : String
  sources : List Source
  search_queries : List String
  grounding_supports : List GroundingSupport
  response_text : String
  text_with_citations : String
deriving DecidableEq

/-- Model of `_web_research` after a successful `generate_content` call. -/
def webResearchOf (resp : GeminiResponse) : ResearchOutput :=
  let er := extractSourcesFromResponse resp
  { summary := if er.text_with_citations ≠ "" then er.text_with_citations else resp.text
    sources := er.sources
    search_queries := er.search_queries
    grounding_supports := er.grounding_supports
    response_text := er.response_text
    text_with_citations := er.text_with_citations }

/-- Provider oracle for one run: the value each provider call site produces.
`research it i = none` models `_web_research` raising or returning `None`
(iteration number `it`, zero-based query position `i`); `reflect` models the
dict `_reflection` returns (its internal fallback included); `synthChunks`
are the chunks `_finalize_answer_streaming` yields (its fallbacks included);
`genQueries` is the list `_generate_queries` returns (its fallback
included). -/
structure Env where
  genQueries : List String
  research : Nat → Nat → Option GeminiResponse
  reflect : List String → Nat → ReflectionResult
  synthChunks : List String

/-- Model of `SearchIteration` (models.py). -/
structure SearchIteration where
  iteration_number : Nat
  queries_generated : List String
  sources_found : Nat
  knowledge_gap_identified : String
deriving DecidableEq

/-- Model of `SourceCitation` (models.py). -/
structure SourceCitation where
  title : String
  url : String
  snippet : String
  source_type : String
deriving DecidableEq

/-- Model of `_calculate_research_completeness`:
`min(1.0, len(sources_gathered) / RESEARCH_COMPLETENESS_DIVISOR)`. -/
def calculateResearchCompleteness (sources_gathered : List Source) : Rat :=
  min 1 ((sources_gathered.length : Rat) / 10)

/-- Model of `_prepare_citations`. -/
def prepareCitations (sources : List Source) : List SourceCitation :=
  sources.map fun s => ⟨s.title, s.url, s.snippet, "google"⟩

/-- Model of `AgenticSearchResponse` (models.py); the wall-clock fields
(`processing_time_seconds`), the constant `agent_type_used` and `debug_info`
(whose `search_queries_used` goes through a Python `set`, with
non-deterministic order) are not modelled. -/
structure AgenticSearchResponse where
  query : String
  final_answer : String
  total_iterations : Nat
  search_iterations : List SearchIteration
  sources : List SourceCitation
  source_count : Nat
  research_completeness : Rat
deriving DecidableEq

/-- Progress events of `execute_agentic_search_stream` (`emit_event` calls),
carrying the payload fields the code emits; wall-clock fields are not
modelled.  `finalizeCompleted` is the `finalize_answer` event with status
"completed" and the full response payload; `finalizeGenerating` is the one
with status "generating_final_answer". -/
inductive Event where
  | errorEvent (error : String)
  | generateQueryPre (query_count : Nat)
  | generateQueryPost (search_query : List String) (query_count : Nat)
  | webResearchStart (iteration : Nat) (query_count : Nat)
  | researchingQuery (query : String) (query_index : Nat) (total_queries : Nat)
  | queryCompleted (sources_found : Nat) (sources_gathered : List Source)
  | reflectionAnalyzing (sources_gathered : Nat) (iteration : Nat)
  | reflectionCompleted (is_sufficient : Bool) (knowledge_gap : String)
      (follow_up_queries : List String) (iteration : Nat)
  | finalizeGenerating (total_sources : Nat) (iterations_completed : Nat)
  | answerChunk (chunk : String)
  | finalizeCompleted (response : AgenticSearchResponse)
deriving DecidableEq

/-- Mutable accumulators of `execute_agentic_search_stream`, plus the events
yielded so far. -/
structure LoopState where
  iteration_count : Nat
  queries : List String
  web_research_results : List String
  sources_gathered : List Source
  search_iterations : List SearchIteration
  all_search_queries : List String
  all_grounding_supports : List GroundingSupport
  texts_with_citations : List String
  events : List Event
deriving DecidableEq

/-- Locals of one pass of the `while` loop (`iteration_results`,
`iteration_sources`) together with the accumulators the inner
`for i, search_query in enumerate(queries)` loop touches. -/
structure IterAcc where
  iteration_results : List String
  iteration_sources : List Source
  all_search_queries : List String
  all_grounding_supports : List GroundingSupport
  texts_with_citations : List String
  events : List Event
deriving DecidableEq

/-- Body of the inner per-query loop: a failed call (`env.research _ _ =
none`, covering both an exception and a `None` result) emits no completion
event and appends nothing, and the loop continues with the next query. -/
def processQuery (env : Env) (itnum total : Nat) (acc : IterAcc) (iq : Nat × String) :
    IterAcc :=
  let ev := acc.events ++ [Event.researchingQuery iq.2 (iq.1 + 1) total]
  match env.research itnum iq.1 with
  | none => { acc with events := ev }
  | some resp =>
    let r := webResearchOf resp
    { iteration_results := acc.iteration_results ++ [r.summary]
      iteration_sources := acc.iteration_sources ++ r.sources
      all_search_queries := acc.all_search_queries ++
        (if r.search_queries ≠ [] then r.search_queries else [])
      all_grounding_supports := acc.all_grounding_supports ++
        (if r.grounding_supports ≠ [] then r.grounding_supports else [])
      texts_with_citations := acc.texts_with_citations ++
        (if r.text_with_citations ≠ "" then [r.text_with_citations] else [])
      events := ev ++ [Event.queryCompleted r.sources.length
        (acc.iteration_sources ++ r.sources)] }

/-- One pass of the `while iteration_count < max_iterations` loop, up to (and
excluding) the continue/stop decision; exactly one `SearchIteration` is
appended per pass. -/
def runIteration (env : Env) (st : LoopState) : LoopState × ReflectionResult :=
  let itnum := st.iteration_count + 1
  let acc0 : IterAcc := ⟨[], [], st.all_search_queries, st.all_grounding_supports,
    st.texts_with_citations,
    st.events ++ [Event.webResearchStart itnum st.queries.length]⟩
  let acc := st.queries.enum.foldl (processQuery env itnum st.queries.length) acc0
  let sources_gathered := st.sources_gathered ++ acc.iteration_sources
  let reflection := env.reflect acc.iteration_results itnum
  ({ iteration_count := itnum
     queries := st.queries
     web_research_results := st.web_research_results ++ acc.iteration_results
     sources_gathered := sources_gathered
     search_iterations := st.search_iterations ++
       [⟨itnum, st.queries, acc.iteration_sources.length, reflection.knowledge_gap⟩]
     all_search_queries := acc.all_search_queries
     all_grounding_supports := acc.all_grounding_supports
     texts_with_citations := acc.texts_with_citations
     events := acc.events ++ [Event.reflectionAnalyzing sources_gathered.length itnum,
       Event.reflectionCompleted reflection.is_sufficient reflection.knowledge_gap
         reflection.follow_up_queries itnum] }, reflection)

/-- Model of `queries = reflection_result["follow_up_queries"][:3]` between passes. -/
def setQueries (st : LoopState) (qs : List String) : LoopState :=
  { st with queries := qs }

/-- The `while` loop, with `fuel = max_iterations - iteration_count`
remaining guard checks; the in-body `break` on
`is_sufficient or iteration_count >= max_iterations`, the follow-up
truncation `[:3]` and the `break` on an empty query list are as in the
source. -/
def runLoop (env : Env) (maxIterations : Nat) : Nat → LoopState → LoopState
  | 0, st => st
  | fuel + 1, st =>
    let pass := runIteration env st
    if pass.2.is_sufficient ∨ maxIterations ≤ pass.1.iteration_count then pass.1
    else
      let queries' := pass.2.follow_up_queries.take 3
      if queries' = [] then pass.1
      else runLoop env maxIterations fuel (setQueries pass.1 queries')

/-- Result of one streamed run that got past credential validation and depth
lookup: the yielded events, the final accumulator state, the response carried
by the terminal event, and whether `_finalize_answer_streaming` was
invoked. -/
structure RunResult where
  events : List Event
  state : LoopState
  response : AgenticSearchResponse
  synthesisCalled : Bool

/-- Completeness, citations, response assembly and the terminal
`finalize_answer`/`completed` event. -/
def finishRun (query : String) (includeCitations : Bool) (stF : LoopState)
    (finalAnswer : String) (synthCalled : Bool) (ev : List Event) : RunResult :=
  let research_completeness := calculateResearchCompleteness stF.sources_gathered
  let final_sources :=
    if includeCitations then prepareCitations stF.sources_gathered else []
  let source_count := if includeCitations then stF.sources_gathered.length else 0
  let response : AgenticSearchResponse :=
    ⟨query, finalAnswer, stF.iteration_count, stF.search_iterations,
      final_sources, source_count, research_completeness⟩
  ⟨ev ++ [Event.finalizeCompleted response], stF, response, synthCalled⟩

/-- Model of `execute_agentic_search_stream` after credential validation and depth
resolution.  `number_of_initial_queries` is passed to `_generate_queries` as
`max_queries` but the returned list is used unchecked, so the oracle
`env.genQueries` is not constrained by it.  Note that
`depth_configs[search_depth]["max_iterations"]` is never read: the loop bound
is the `max_iterations` keyword argument (default 3).  If exactly one
citation-composed text was collected it is streamed directly as the final
answer; otherwise the synthesizer is invoked. -/
def runStreamCore (query : String) (maxIterations : Nat)
    (numInitialQueries : Nat) (includeCitations : Bool) (env : Env) : RunResult :=
  let queries := env.genQueries
  let st0 : LoopState :=
    ⟨0, queries, [], [], [], [], [], [],
      [Event.generateQueryPre numInitialQueries,
       Event.generateQueryPost queries queries.length]⟩
  let stF := runLoop env maxIterations maxIterations st0
  let ev1 := stF.events ++
    [Event.finalizeGenerating stF.sources_gathered.length stF.iteration_count]
  match stF.texts_with_citations with
  | [t] => finishRun query includeCitations stF t false (ev1 ++ [Event.answerChunk t])
  | _ =>
    let chunks := env.synthChunks
    finishRun query includeCitations stF (String.join chunks) true
      (ev1 ++ chunks.map Event.answerChunk)

/-- Outcome of one call to `execute_agentic_search_stream`. -/
inductive StreamOutcome where
  | configError (events : List Event)
  | depthKeyError
  | completed (r : RunResult)

/-- Model of `execute_agentic_search_stream(**kwargs)`: a missing credential yields a
single `error` event and ends the stream; an unknown `search_depth` raises
`KeyError` before any event is yielded; otherwise the run proceeds and ends
with the terminal event. -/
def runStream (query : String) (apiKeyPresent : Bool) (maxIterations : Nat)
    (searchDepth : String) (includeCitations : Bool) (env : Env) : StreamOutcome :=
  if !apiKeyPresent then
    .configError [Event.errorEvent "GEMINI_API_KEY required for agentic search"]
  else
    match depthConfigs searchDepth with
    | none => .depthKeyError
    | some profile =>
      .completed (runStreamCore query maxIterations profile.number_of_initial_queries
        includeCitations env)

/-- The names in `locals()` at the point of the call
`self.execute_agentic_search_stream(**locals())` in
`execute_agentic_search`: the eight parameters plus the two locals assigned
before the call. -/
def syncCallKwargNames : List String :=
  ["self", "query", "agent_type", "max_iterations", "include_citations",
   "search_depth", "custom_instructions", "user_id", "start_time", "final_response"]

/-- Python call binding for `self.execute_agentic_search_stream(**kwargs)`:
the method's only named parameter is `self`, which the bound-method receiver
already binds positionally, so a keyword argument named "self" makes the call
itself raise `TypeError` (got multiple values for argument 'self'). -/
def bindStreamCall (kwargNames : List String) : Except String Unit :=
  if kwargNames.contains "self" then
    .error "TypeError: got multiple values for argument self"
  else .ok ()

/-- Model of `_create_fallback_response` (processing-time field not modelled). -/
def createFallbackResponse (query : String) : AgenticSearchResponse :=
  { query := query
    final_answer := "I searched for information about '" ++ query ++
      "' but encountered an issue processing the results."
    total_iterations := 0
    search_iterations := []
    sources := []
    source_count := 0
    research_completeness := 0 }

/-- The `async for` scan of `execute_agentic_search`: the first
`finalize_answer` event with status "completed" that carries a response. -/
def drainFinalResponse (events : List Event) : Option AgenticSearchResponse :=
  events.findSome? fun e =>
    match e with
    | Event.finalizeCompleted r => some r
    | _ => none

/-- Model of `execute_agentic_search`: it validates the credential (the `ValueError` is
re-raised by the `except` clause), then drives
`execute_agentic_search_stream(**locals())`.  Since `locals()` contains
`self`, the binding of that call raises `TypeError`, which the `except`
clause re-raises; the drain-and-fallback code below the call is
unreachable. -/
def executeAgenticSearch (apiKeyPresent : Bool) (query : String)
    (maxIterations : Nat) (searchDepth : String) (includeCitations : Bool)
    (env : Env) : Except String AgenticSearchResponse :=
  if !apiKeyPresent then .error "GEMINI_API_KEY required for agentic search"
  else
    match bindStreamCall syncCallKwargNames with
    | .error e => .error e
    | .ok _ =>
      match runStream query apiKeyPresent maxIterations searchDepth
          includeCitations env with
      | .configError _ => .ok (createFallbackResponse query)
      | .depthKeyError => .error "KeyError"
      | .completed r =>
        match drainFinalResponse r.events with
        | some resp => .ok resp
        | none => .ok (createFallbackResponse query)

/-- The summaries of the successful research calls of one iteration, in query
order: exactly what the inner loop appends to `iteration_results`. -/
def iterationSummaries (env : Env) (itnum : Nat) (queries : List String) : List String :=
  queries.enum.filterMap fun iq =>
    (env.research itnum iq.1).map fun resp => (webResearchOf resp).summary

/-- The sources of the successful research calls of one iteration, in query
order. -/
def iterationSources (env : Env) (itnum : Nat) (queries : List String) : List Source :=
  (queries.enum.filterMap fun iq =>
    (env.research itnum iq.1).map fun resp => (webResearchOf resp).sources).flatten

/-- The `(query, query_index, total_queries)` payloads of the
`researching_query` events in an event list, in order: one per query the run
actually visited. -/
def researchedQueries (events : List Event) : List (String × Nat × Nat) :=
  events.filterMap fun e =>
    match e with
    | Event.researchingQuery q i t => some (q, i, t)
    | _ => none

/-- A response carrying grounding metadata with no supports and no chunks:
extraction returns `text_with_citations = t` (the composer is the identity
without supports) and no sources. -/
def respPlain (t : String) : GeminiResponse :=
  ⟨t, [⟨some ⟨[], [], []⟩⟩]⟩

/-- Oracle: one generated query, every research call fails, reflection always
sufficient. -/
def envSimple : Env :=
  ⟨["q"], fun _ _ => none, fun _ _ => ⟨true, "", []⟩, ["a"]⟩

/-- Oracle: reflection always insufficient with one follow-up query. -/
def envInsufficient : Env :=
  ⟨["X"], fun _ _ => none, fun _ _ => ⟨false, "gap", ["follow"]⟩, ["ans"]⟩

/-- Oracle: two queries, both research calls succeed with citation-composed
text; reflection sufficient after one iteration. -/
def envTwoTexts : Env :=
  ⟨["q1", "q2"], fun _ i => some (respPlain (if i = 0 then "t1" else "t2")),
   fun _ _ => ⟨true, "", []⟩, ["merged"]⟩

/-- Oracle: one query whose research call succeeds with citation-composed
text; reflection sufficient after one iteration. -/
def envOneText : Env :=
  ⟨["q"], fun _ _ => some (respPlain "only"), fun _ _ => ⟨true, "", []⟩, ["merged"]⟩

/-- Oracle: two queries, the first research call fails and the second
succeeds. -/
def envOneFail : Env :=
  ⟨["a", "b"], fun _ i => if i = 0 then none else some (respPlain "okB"),
   fun _ _ => ⟨true, "", []⟩, ["syn"]⟩

/-- A fresh loop state with two queued queries. -/
def stTwoQueries : LoopState :=
  ⟨0, ["a", "b"], [], [], [], [], [], [], []⟩

/-! ## Theorems -/

theorem spliceAt_empty (text : String) (n : Nat) :
    spliceAt text n "" = text := by
  simp [spliceAt]

theorem citeStep_eq_amended (sources : List Source) (text : String)
    (support : GroundingSupport) :
    citeStep sources text support = citeStepAmended sources text support := by
  simp only [citeStep, citeStepAmended]
  split_ifs with h1 h2
  · rfl
  · rw [not_not] at h2
    rw [h2]
    exact (spliceAt_empty text _).symm
  · rfl

theorem foldl_congr_step {α β : Type} (f g : α → β → α) (l : List β)
    (h : ∀ a b, f a b = g a b) : ∀ a : α, l.foldl f a = l.foldl g a := by
  induction l with
  | nil => intro a; rfl
  | cons x xs ih => intro a; simp only [List.foldl_cons, h, ih]

/-- C1: The inline citation composer, given (text, grounding_supports,
sources), returns the text unchanged when the text is empty or there are no
supports; otherwise it processes supports sorted by end_index in descending
order and, for every support and every entry i of its source_indices, builds
the marker "[i+1](url)" when i is a valid index into the source list and that
source's URL starts with http:// or https://, and otherwise builds a bare
"[i+1]" marker; the markers of one support are joined with ", " and the joined
string is inserted (not replacing anything) at the support's end_index.
This is FALSE as stated: a `source_indices` entry that is not a valid index
into the source list produces no marker at all (the loop body is guarded by
`i < len(sources)`), not a bare marker, so the claimed composer and the code
disagree.  Counterexample: text "ab", one support with end_index 1 and
source_indices [5], empty source list. -/
theorem addInlineCitations_claim_counterexample :
    addInlineCitations "ab" [⟨"", 0, 1, [5]⟩] [] = "ab" ∧
    addInlineCitationsClaimed "ab" [⟨"", 0, 1, [5]⟩] [] = "a[6]b" ∧
    ("ab" : String) ≠ "a[6]b" := by
  refine ⟨by decide, by decide, by decide⟩

/-- C1 (amended): as C1, except that a `source_indices` entry that is not a
valid index into the source list contributes no marker (bare markers arise
only for a valid index whose URL is not http(s)), and a support inserts its
joined marker string at its end_index only when its source_indices list is
non-empty and its end_index is at most the length of the current text;
otherwise that support leaves the text unchanged. -/
theorem addInlineCitations_amended_correct (text : String)
    (grounding_supports : List GroundingSupport) (sources : List Source) :
    addInlineCitations text grounding_supports sources =
      addInlineCitationsAmended text grounding_supports sources := by
  unfold addInlineCitations addInlineCitationsAmended
  by_cases h : text = "" ∨ grounding_supports = []
  · simp [h]
  · simp only [if_neg h]
    exact foldl_congr_step _ _ _ (citeStep_eq_amended sources) text

theorem mem_insertByEndIndexDesc {x s : GroundingSupport} :
    ∀ {l : List GroundingSupport}, x ∈ insertByEndIndexDesc s l → x = s ∨ x ∈ l
  | [], h => by
    simp only [insertByEndIndexDesc, List.mem_singleton] at h
    exact Or.inl h
  | t :: ts, h => by
    simp only [insertByEndIndexDesc] at h
    by_cases hle : t.end_index ≤ s.end_index
    · rw [if_pos hle] at h
      rcases List.mem_cons.mp h with h1 | h1
      · exact Or.inl h1
      · exact Or.inr h1
    · rw [if_neg hle] at h
      rcases List.mem_cons.mp h with h1 | h1
      · exact Or.inr (List.mem_cons.mpr (Or.inl h1))
      · rcases mem_insertByEndIndexDesc h1 with h2 | h2
        · exact Or.inl h2
        · exact Or.inr (List.mem_cons.mpr (Or.inr h2))

theorem mem_sortSupports {x : GroundingSupport} :
    ∀ {l : List GroundingSupport}, x ∈ sortSupports l → x ∈ l := by
  intro l
  induction l with
  | nil => intro h; exact absurd h (List.not_mem_nil x)
  | cons t ts ih =>
    intro h
    rcases mem_insertByEndIndexDesc (l := sortSupports ts) h with h' | h'
    · exact h' ▸ List.mem_cons_self t ts
    · exact List.mem_cons_of_mem t (ih h')

theorem citeStep_empty_indices (sources : List Source) (text : String)
    (support : GroundingSupport) (h : support.source_indices = []) :
    citeStep sources text support = text := by
  unfold citeStep
  rw [if_neg]
  rintro ⟨hne, -⟩
  exact hne h

theorem foldl_citeStep_empty_indices (sources : List Source) :
    ∀ (l : List GroundingSupport) (text : String),
      (∀ sup ∈ l, sup.source_indices = []) → l.foldl (citeStep sources) text = text := by
  intro l
  induction l with
  | nil => intro text _; rfl
  | cons x xs ih =>
    intro text h
    rw [List.foldl_cons, citeStep_empty_indices sources text x (h x (List.mem_cons_self x xs))]
    exact ih text fun sup hs => h sup (List.mem_cons_of_mem x hs)

/-- C10 (implicit): the inline citation composer inserts markers for a support
only when that support's source_indices list is non-empty and its end_index is
at most the length of the current (already partially spliced) text;
consequently every slice index used when splicing is within bounds (the
result decomposes as `take end_index ++ inserted ++ drop end_index` of the
current text, so the splice never reads or writes past the string), and a
support with an empty source_indices list, or with an end_index beyond the
current text length, or none of whose indices fall inside the source list,
leaves the text unchanged (for a run whose supports all have empty
source_indices, the whole composer is the identity). -/
theorem citeStep_guards (sources : List Source) (support : GroundingSupport)
    (text : String) (supports : List GroundingSupport) :
    ((support.source_indices = [] ∨ text.data.length < support.end_index ∨
        (∀ i ∈ support.source_indices, sources.length ≤ i)) →
      citeStep sources text support = text) ∧
    (support.end_index ≤ text.data.length →
      ∃ mid : List Char,
        (citeStep sources text support).data =
          text.data.take support.end_index ++ mid ++ text.data.drop support.end_index) ∧
    ((∀ sup ∈ supports, sup.source_indices = []) →
      addInlineCitations text supports sources = text) := by
  refine ⟨?_, ?_, ?_⟩
  · rintro (h | h | h)
    · exact citeStep_empty_indices sources text support h
    · unfold citeStep
      rw [if_neg]
      rintro ⟨-, hle⟩
      omega
    · simp only [citeStep]
      split_ifs with h1 h2
      · exfalso
        apply h2
        apply List.filterMap_eq_nil_iff.mpr
        intro i hi
        unfold citationMarker
        rw [dif_neg]
        have := h i hi
        omega
      · rfl
      · rfl
  · intro hle
    simp only [citeStep]
    split_ifs with h1 h2
    · exact ⟨(String.intercalate ", "
        (support.source_indices.filterMap (citationMarker sources))).data, rfl⟩
    · exact ⟨[], by rw [List.append_nil, List.take_append_drop]⟩
    · exact ⟨[], by rw [List.append_nil, List.take_append_drop]⟩
  · intro h
    unfold addInlineCitations
    split_ifs with h1
    · rfl
    · exact foldl_citeStep_empty_indices sources _ text
        fun sup hs => h sup (mem_sortSupports hs)

/-- Closed witness for `citeStep_guards`: each hypothesis discharged at a
concrete input. -/
theorem citeStep_guards_witness :
    citeStep [] "ab" ⟨"", 0, 1, [0]⟩ = "ab" ∧
    (∃ mid : List Char,
      (citeStep [] "ab" ⟨"", 0, 1, [0]⟩).data =
        "ab".data.take 1 ++ mid ++ "ab".data.drop 1) ∧
    addInlineCitations "ab" [⟨"", 0, 3, []⟩] [] = "ab" :=
  ⟨(citeStep_guards [] ⟨"", 0, 1, [0]⟩ "ab" []).1 (Or.inr (Or.inr (by decide))),
   (citeStep_guards [] ⟨"", 0, 1, [0]⟩ "ab" []).2.1 (by decide),
   (citeStep_guards [] ⟨"", 0, 3, []⟩ "ab" [⟨"", 0, 3, []⟩]).2.2 (by decide)⟩

theorem extractChunkSources_length_of_web (supports : List GroundingSupport) :
    ∀ (chunks : List Chunk) (i : Nat), (∀ c ∈ chunks, c.web.isSome) →
      (extractChunkSources supports i chunks).length = chunks.length
  | [], _, _ => rfl
  | c :: rest, i, h => by
    have hc : c.web.isSome := h c (List.mem_cons_self c rest)
    match hw : c.web with
    | none => rw [hw] at hc; exact absurd hc (by simp)
    | some w =>
      simp only [extractChunkSources, hw, List.length_cons]
      rw [extractChunkSources_length_of_web supports rest (i + 1)
        (fun d hd => h d (List.mem_cons_of_mem c hd))]

/-- C3: every source_indices entry of every grounding support recorded by the
extraction step is a valid index into the list of sources produced by that
same call, even when some grounding chunks of the provider response carry no
web reference and are therefore not added to the source list.
This is FALSE: `source_indices` are copied verbatim from
`grounding_chunk_indices`, which index the chunk list; a chunk without a web
reference is skipped when building the source list, so the positions
misalign.  On `respChunkSkip`, the support records index 1 but the source
list has length 1. -/
theorem extraction_source_indices_counterexample :
    (extractSourcesFromResponse respChunkSkip).sources.length = 1 ∧
    (extractSourcesFromResponse respChunkSkip).grounding_supports.map
      (fun s => s.source_indices) = [[1]] ∧
    ¬ (∀ sup ∈ (extractSourcesFromResponse respChunkSkip).grounding_supports,
        ∀ i ∈ sup.source_indices,
          i < (extractSourcesFromResponse respChunkSkip).sources.length) := by
  refine ⟨by decide, by decide, ?_⟩
  intro h
  have := h ⟨"t", 0, 1, [1]⟩ (by decide) 1 (by decide)
  simp only [show (extractSourcesFromResponse respChunkSkip).sources.length = 1 from by decide]
    at this
  omega

/-- C3 (amended): every source_indices entry recorded by the extraction step
is copied verbatim from the provider's grounding_chunk_indices, hence is a
valid index into the source list of the same call whenever the provider's
indices are valid chunk indices and every grounding chunk carries a web
reference (so that no chunk is skipped and chunk positions coincide with
source positions). -/
theorem extraction_source_indices_valid (r : GeminiResponse) (md : GroundingMetadata)
    (hmd : responseMetadata r = some md)
    (hweb : ∀ c ∈ md.grounding_chunks, c.web.isSome)
    (hidx : ∀ s ∈ md.grounding_supports, ∀ i ∈ s.grounding_chunk_indices,
      i < md.grounding_chunks.length) :
    ∀ sup ∈ (extractSourcesFromResponse r).grounding_supports,
      ∀ i ∈ sup.source_indices, i < (extractSourcesFromResponse r).sources.length := by
  intro sup hsup i hi
  simp only [extractSourcesFromResponse, hmd] at hsup ⊢
  rw [extractChunkSources_length_of_web _ _ _ hweb]
  rcases List.mem_map.mp hsup with ⟨raw, hraw, hconv⟩
  have : sup.source_indices = raw.grounding_chunk_indices := by
    rw [← hconv]; rfl
  rw [this] at hi
  exact hidx raw hraw i hi

/-- Closed witness for `extraction_source_indices_valid` at `respAllWeb`. -/
theorem extraction_source_indices_valid_witness :
    0 < (extractSourcesFromResponse respAllWeb).sources.length :=
  extraction_source_indices_valid respAllWeb
    ⟨[⟨⟨"t", 0, 1⟩, [0]⟩], [⟨some ⟨"https://x", "T", "s"⟩, ""⟩], []⟩
    rfl (by decide) (by decide)
    ⟨"t", 0, 1, [0]⟩ (by decide) 0 (by decide)

/-- C4: when a provider response carries no grounding metadata, the grounding
extraction step returns the response's raw text together with empty source,
search-query, and grounding-support lists.
This is FALSE for the raw-text part: `response_text` is initialised to `""`
and only assigned from `response.text` inside the grounding-metadata branch,
so without metadata the extraction returns `""`, not the raw text.  (The
caller `_web_research` recovers the raw text separately via
`text_with_citations or response.text`.) -/
theorem extraction_no_metadata_counterexample :
    (extractSourcesFromResponse ⟨"hello", []⟩).response_text = "" ∧
    (GeminiResponse.mk "hello" []).text = "hello" ∧
    (extractSourcesFromResponse ⟨"hello", []⟩).response_text ≠
      (GeminiResponse.mk "hello" []).text := by
  refine ⟨by decide, by decide, by decide⟩

/-- C4 (amended): when a provider response carries no grounding metadata, the
grounding extraction step returns empty response text (not the raw text,
which the caller recovers on its own) together with empty source,
search-query, and grounding-support lists. -/
theorem extraction_no_metadata (r : GeminiResponse)
    (h : responseMetadata r = none) :
    extractSourcesFromResponse r = ⟨[], [], [], "", ""⟩ := by
  simp only [extractSourcesFromResponse, h]
  simp [addInlineCitations]

/-- Closed witness for `extraction_no_metadata`. -/
theorem extraction_no_metadata_witness :
    extractSourcesFromResponse ⟨"hi", []⟩ = ⟨[], [], [], "", ""⟩ :=
  extraction_no_metadata ⟨"hi", []⟩ rfl

/-! ## Loop invariants -/

theorem setQueries_iteration_count (st : LoopState) (qs : List String) :
    (setQueries st qs).iteration_count = st.iteration_count := rfl

theorem setQueries_search_iterations (st : LoopState) (qs : List String) :
    (setQueries st qs).search_iterations = st.search_iterations := rfl

theorem runIteration_count (env : Env) (st : LoopState) :
    (runIteration env st).1.iteration_count = st.iteration_count + 1 := rfl

theorem runIteration_iters_length (env : Env) (st : LoopState) :
    (runIteration env st).1.search_iterations.length =
      st.search_iterations.length + 1 := by
  simp [runIteration]

theorem runLoop_count_mono (env : Env) (m : Nat) :
    ∀ (fuel : Nat) (st : LoopState),
      st.iteration_count ≤ (runLoop env m fuel st).iteration_count
  | 0, _ => Nat.le_refl _
  | fuel + 1, st => by
    simp only [runLoop]
    split_ifs with h1 h2
    · rw [runIteration_count]; omega
    · rw [runIteration_count]; omega
    · have h := runLoop_count_mono env m fuel
        (setQueries (runIteration env st).1 ((runIteration env st).2.follow_up_queries.take 3))
      rw [setQueries_iteration_count, runIteration_count] at h
      exact Nat.le_trans (Nat.le_succ st.iteration_count) h

theorem runLoop_count_le (env : Env) (m : Nat) :
    ∀ (fuel : Nat) (st : LoopState),
      (runLoop env m fuel st).iteration_count ≤ st.iteration_count + fuel
  | 0, st => by simp [runLoop]
  | fuel + 1, st => by
    simp only [runLoop]
    split_ifs with h1 h2
    · rw [runIteration_count]; omega
    · rw [runIteration_count]; omega
    · refine Nat.le_trans (runLoop_count_le env m fuel _) ?_
      show st.iteration_count + 1 + fuel ≤ st.iteration_count + (fuel + 1)
      omega

theorem runLoop_count_ge_one (env : Env) (m : Nat) :
    ∀ (fuel : Nat) (st : LoopState), 1 ≤ fuel →
      st.iteration_count + 1 ≤ (runLoop env m fuel st).iteration_count
  | 0, _, h => absurd h (by omega)
  | fuel + 1, st, _ => by
    simp only [runLoop]
    split_ifs with h1 h2
    · rw [runIteration_count]
    · rw [runIteration_count]
    · have h := runLoop_count_mono env m fuel
        (setQueries (runIteration env st).1 ((runIteration env st).2.follow_up_queries.take 3))
      rw [setQueries_iteration_count, runIteration_count] at h
      exact h

theorem runLoop_iters_length (env : Env) (m : Nat) :
    ∀ (fuel : Nat) (st : LoopState),
      (runLoop env m fuel st).search_iterations.length + st.iteration_count =
        (runLoop env m fuel st).iteration_count + st.search_iterations.length
  | 0, st => by simp [runLoop]; omega
  | fuel + 1, st => by
    simp only [runLoop]
    split_ifs with h1 h2
    · rw [runIteration_iters_length, runIteration_count]; omega
    · rw [runIteration_iters_length, runIteration_count]; omega
    · have ih := runLoop_iters_length env m fuel
        (setQueries (runIteration env st).1 ((runIteration env st).2.follow_up_queries.take 3))
      rw [setQueries_iteration_count, setQueries_search_iterations,
        runIteration_iters_length, runIteration_count] at ih
      omega

theorem researchedQueries_append (a b : List Event) :
    researchedQueries (a ++ b) = researchedQueries a ++ researchedQueries b :=
  List.filterMap_append a b _

theorem foldl_processQuery_results (env : Env) (itnum total : Nat) :
    ∀ (l : List (Nat × String)) (acc : IterAcc),
      (l.foldl (processQuery env itnum total) acc).iteration_results =
        acc.iteration_results ++
          l.filterMap (fun iq => (env.research itnum iq.1).map
            fun resp => (webResearchOf resp).summary)
  | [], acc => by simp
  | x :: xs, acc => by
    rw [List.foldl_cons, foldl_processQuery_results env itnum total xs _,
      List.filterMap_cons]
    cases hx : env.research itnum x.1 with
    | none => simp [processQuery, hx]
    | some resp => simp [processQuery, hx]

theorem foldl_processQuery_sources (env : Env) (itnum total : Nat) :
    ∀ (l : List (Nat × String)) (acc : IterAcc),
      (l.foldl (processQuery env itnum total) acc).iteration_sources =
        acc.iteration_sources ++
          (l.filterMap (fun iq => (env.research itnum iq.1).map
            fun resp => (webResearchOf resp).sources)).flatten
  | [], acc => by simp
  | x :: xs, acc => by
    rw [List.foldl_cons, foldl_processQuery_sources env itnum total xs _,
      List.filterMap_cons]
    cases hx : env.research itnum x.1 with
    | none => simp [processQuery, hx]
    | some resp => simp [processQuery, hx]

theorem foldl_processQuery_researched (env : Env) (itnum total : Nat) :
    ∀ (l : List (Nat × String)) (acc : IterAcc),
      researchedQueries (l.foldl (processQuery env itnum total) acc).events =
        researchedQueries acc.events ++ l.map (fun iq => (iq.2, iq.1 + 1, total))
  | [], acc => by simp
  | x :: xs, acc => by
    rw [List.foldl_cons, foldl_processQuery_researched env itnum total xs _]
    cases hx : env.research itnum x.1 with
    | none =>
      simp [processQuery, hx, researchedQueries_append, researchedQueries]
    | some resp =>
      simp [processQuery, hx, researchedQueries_append, researchedQueries]

theorem runIteration_results (env : Env) (st : LoopState) :
    (runIteration env st).1.web_research_results =
      st.web_research_results ++
        iterationSummaries env (st.iteration_count + 1) st.queries := by
  simp only [runIteration, iterationSummaries]
  rw [foldl_processQuery_results]
  simp

theorem runIteration_sources (env : Env) (st : LoopState) :
    (runIteration env st).1.sources_gathered =
      st.sources_gathered ++
        iterationSources env (st.iteration_count + 1) st.queries := by
  simp only [runIteration, iterationSources]
  rw [foldl_processQuery_sources]
  simp

theorem runIteration_researched (env : Env) (st : LoopState) :
    researchedQueries (runIteration env st).1.events =
      researchedQueries st.events ++
        st.queries.enum.map (fun iq => (iq.2, iq.1 + 1, st.queries.length)) := by
  simp only [runIteration]
  rw [researchedQueries_append, foldl_processQuery_researched,
    researchedQueries_append]
  simp [researchedQueries]

/-! ## Run-level facts -/

theorem runStreamCore_last_event (query : String) (m nq : Nat) (inc : Bool)
    (env : Env) :
    (runStreamCore query m nq inc env).events.getLast? =
      some (Event.finalizeCompleted (runStreamCore query m nq inc env).response) := by
  simp only [runStreamCore]
  split <;> dsimp only [finishRun] <;> exact List.getLast?_concat _

theorem runStreamCore_total (query : String) (m nq : Nat) (inc : Bool)
    (env : Env) :
    (runStreamCore query m nq inc env).response.total_iterations =
      (runStreamCore query m nq inc env).state.iteration_count ∧
    (runStreamCore query m nq inc env).response.search_iterations =
      (runStreamCore query m nq inc env).state.search_iterations := by
  simp only [runStreamCore]
  split <;> exact ⟨rfl, rfl⟩

theorem runStreamCore_state (query : String) (m nq : Nat) (inc : Bool)
    (env : Env) :
    (runStreamCore query m nq inc env).state = runLoop env m m
      ⟨0, env.genQueries, [], [], [], [], [], [],
        [Event.generateQueryPre nq,
         Event.generateQueryPost env.genQueries env.genQueries.length]⟩ := by
  simp only [runStreamCore]
  split <;> rfl

/-- C7 (amended): if exactly one research call across the whole run produced
(non-empty) citation-composed text, the answer synthesizer is skipped
entirely and that text is streamed directly as the final answer; in every
other case (zero, or two or more, such texts) the synthesis call is made and
the final answer is the concatenation of its streamed chunks. -/
theorem single_citation_text_skips_synthesis (query : String) (m nq : Nat) (inc : Bool)
    (env : Env) :
    (∀ t, (runStreamCore query m nq inc env).state.texts_with_citations = [t] →
      (runStreamCore query m nq inc env).synthesisCalled = false ∧
      (runStreamCore query m nq inc env).response.final_answer = t) ∧
    ((runStreamCore query m nq inc env).state.texts_with_citations.length ≠ 1 →
      (runStreamCore query m nq inc env).synthesisCalled = true ∧
      (runStreamCore query m nq inc env).response.final_answer =
        String.join env.synthChunks) := by
  simp only [runStreamCore]
  split
  case h_1 t heq =>
    dsimp only [finishRun]
    constructor
    · intro t' ht'
      rw [heq] at ht'
      injection ht' with h1
      exact ⟨rfl, h1⟩
    · intro hlen
      rw [heq] at hlen
      simp at hlen
  case h_2 xs hne =>
    dsimp only [finishRun]
    constructor
    · intro t' ht'
      exact absurd ht' (hne t')
    · intro _
      exact ⟨rfl, rfl⟩

/-- C5: For every run that completes with a FinalResponse (no
ConfigurationError), the response satisfies
`len(search_iterations) == total_iterations <= max_iterations <= 5` and
`total_iterations >= 1`: exactly one SearchIteration entry is appended per
loop pass and the loop guard strictly bounds the pass count by
max_iterations.  (`1 <= max_iterations <= 5` is the request-model validation
`Field(3, ge=1, le=5)`, taken as a hypothesis.) -/
theorem response_iteration_invariant (query : String) (m : Nat) (depth : String)
    (p : DepthProfile) (inc : Bool) (env : Env)
    (hd : depthConfigs depth = some p) (h1 : 1 ≤ m) (h5 : m ≤ 5) :
    ∃ r : RunResult, runStream query true m depth inc env = StreamOutcome.completed r ∧
      r.response.search_iterations.length = r.response.total_iterations ∧
      1 ≤ r.response.total_iterations ∧
      r.response.total_iterations ≤ m ∧ m ≤ 5 := by
  refine ⟨runStreamCore query m p.number_of_initial_queries inc env, ?_, ?_, ?_, ?_, h5⟩
  · simp [runStream, hd]
  · obtain ⟨ht, hs⟩ := runStreamCore_total query m p.number_of_initial_queries inc env
    rw [ht, hs, runStreamCore_state]
    have h := runLoop_iters_length env m m
      ⟨0, env.genQueries, [], [], [], [], [], [],
        [Event.generateQueryPre p.number_of_initial_queries,
         Event.generateQueryPost env.genQueries env.genQueries.length]⟩
    dsimp at h
    omega
  · obtain ⟨ht, _⟩ := runStreamCore_total query m p.number_of_initial_queries inc env
    rw [ht, runStreamCore_state]
    have h := runLoop_count_ge_one env m m
      ⟨0, env.genQueries, [], [], [], [], [], [],
        [Event.generateQueryPre p.number_of_initial_queries,
         Event.generateQueryPost env.genQueries env.genQueries.length]⟩ h1
    dsimp at h
    omega
  · obtain ⟨ht, _⟩ := runStreamCore_total query m p.number_of_initial_queries inc env
    rw [ht, runStreamCore_state]
    have h := runLoop_count_le env m m
      ⟨0, env.genQueries, [], [], [], [], [], [],
        [Event.generateQueryPre p.number_of_initial_queries,
         Event.generateQueryPost env.genQueries env.genQueries.length]⟩
    dsimp at h
    omega

/-- Closed witness for `response_iteration_invariant`. -/
theorem response_iteration_invariant_witness :
    ∃ r : RunResult, runStream "q" true 1 "quick" true envSimple =
        StreamOutcome.completed r ∧
      r.response.search_iterations.length = r.response.total_iterations ∧
      1 ≤ r.response.total_iterations ∧
      r.response.total_iterations ≤ 1 ∧ 1 ≤ 5 :=
  response_iteration_invariant "q" 1 "quick" ⟨1, 2⟩ true envSimple rfl
    (by decide) (by decide)

/-- C2: For every request whose search_depth is "quick", a run that does not
hit a configuration error performs exactly 1 research iteration, generates at
most 2 initial search queries, and ends with a terminal finalize_answer event
whose status is "completed"; i.e. the depth profile's pair
{max_iterations, initial_query_count} = {1, 2} governs both the loop bound
and the initial query count.
CODE BUG: the loop bound is the `max_iterations` keyword argument (default 3,
also the request-model default), and `depth_configs["quick"]["max_iterations"]
= 1` is never read, although the request model's own `search_depth`
description documents "quick (1 iteration, 2 queries)".  With the default
`max_iterations = 3` and a reflection oracle that keeps reporting
insufficiency, a quick run performs 3 research iterations, not 1. -/
theorem quick_depth_three_iterations :
    ∃ r : RunResult, runStream "X" true 3 "quick" true envInsufficient =
        StreamOutcome.completed r ∧
      r.response.total_iterations = 3 ∧
      r.events.getLast? = some (Event.finalizeCompleted r.response) ∧
      depthConfigs "quick" = some ⟨1, 2⟩ := by
  refine ⟨runStreamCore "X" 3 2 true envInsufficient, rfl, ?_, ?_, ?_⟩
  · decide
  · exact runStreamCore_last_event "X" 3 2 true envInsufficient
  · decide

/-- C6: For every request, the synchronous entry point either returns the
FinalResponse carried by the terminal finalize_answer event or, if no such
terminal event arrives from the stream, returns (without raising to the
caller) the deterministic fallback response.
CODE BUG: `execute_agentic_search` passes `**locals()` — which contains
`self` — to the bound method `execute_agentic_search_stream`, so that call
raises `TypeError` before a single event is drained, and the `except` clause
re-raises it: the synchronous entry point never returns the terminal
response nor the fallback (`createFallbackResponse` is unreachable). -/
theorem sync_entry_always_raises (query : String) (m : Nat) (depth : String)
    (inc : Bool) (env : Env) :
    executeAgenticSearch true query m depth inc env =
      Except.error "TypeError: got multiple values for argument self" := rfl

/-- C7: counterexample.  If exactly one iteration produced citation-composed
text, the answer synthesizer is skipped entirely and that citation-composed
text is streamed directly as the final answer; the synthesis call is made
only when two or more iteration summaries must be merged.
This is FALSE as stated: the skip condition counts citation-composed texts
per research call (`len(texts_with_citations) == 1`), not per iteration.  In
this run exactly one iteration executes and produces citation-composed text,
but its two queries yield two texts, so the synthesizer is invoked. -/
theorem single_iteration_two_texts_counterexample :
    ∃ r : RunResult, runStream "topic" true 3 "standard" true envTwoTexts =
        StreamOutcome.completed r ∧
      r.response.total_iterations = 1 ∧
      r.state.texts_with_citations = ["t1", "t2"] ∧
      r.synthesisCalled = true ∧
      r.response.final_answer = "merged" := by
  refine ⟨runStreamCore "topic" 3 3 true envTwoTexts, rfl, ?_, ?_, ?_, ?_⟩ <;> decide

/-- Closed witness for `single_citation_text_skips_synthesis`. -/
theorem single_citation_text_skips_synthesis_witness :
    (runStreamCore "t" 3 3 true envOneText).synthesisCalled = false ∧
    (runStreamCore "t" 3 3 true envOneText).response.final_answer = "only" :=
  (single_citation_text_skips_synthesis "t" 3 3 true envOneText).1 "only" (by decide)

/-- C8: When the reflection provider call fails, the fallback result has
is_sufficient == true exactly when iteration_count >= 2 or len(summaries) >= 3
(in particular, with 3 summaries and iteration_count = 1 it is true), and
otherwise the fallback proposes exactly one generic follow-up query formed by
appending " additional details" to the topic. -/
theorem reflection_fallback_spec (topic : String) (summaries : List String)
    (iteration_count : Nat) :
    ((reflectionFallback topic summaries iteration_count).is_sufficient = true ↔
      (2 ≤ iteration_count ∨ 3 ≤ summaries.length)) ∧
    (∀ s1 s2 s3 : String,
      (reflectionFallback topic [s1, s2, s3] 1).is_sufficient = true) ∧
    (¬ (2 ≤ iteration_count ∨ 3 ≤ summaries.length) →
      (reflectionFallback topic summaries iteration_count).follow_up_queries =
        [topic ++ " additional details"]) := by
  refine ⟨?_, ?_, ?_⟩
  · simp [reflectionFallback]
  · intro s1 s2 s3
    simp [reflectionFallback]
  · intro h
    push_neg at h
    have h2 : ¬ 2 ≤ iteration_count := by omega
    simp [reflectionFallback, h2]

/-- Closed witness for `reflection_fallback_spec`. -/
theorem reflection_fallback_spec_witness :
    (reflectionFallback "X" [] 1).follow_up_queries = ["X" ++ " additional details"] :=
  (reflection_fallback_spec "X" [] 1).2.2 (by decide)

/-- C9: If the web-research call for one query fails (raises or returns
null), that query is skipped in place: none of its results are appended to
the accumulators (`web_research_results` and `sources_gathered` grow exactly
by the successful calls' contributions, in query order), the remaining
queries of the same iteration are still executed in list order (one
`researching_query` event per queued query, in order), and the run still
reaches the terminal finalize_answer event using the results of the
successful queries. -/
theorem failed_query_skipped (env : Env) (st : LoopState) (query : String)
    (m : Nat) (depth : String) (p : DepthProfile) (inc : Bool)
    (hd : depthConfigs depth = some p) :
    (runIteration env st).1.web_research_results =
      st.web_research_results ++
        iterationSummaries env (st.iteration_count + 1) st.queries ∧
    (runIteration env st).1.sources_gathered =
      st.sources_gathered ++
        iterationSources env (st.iteration_count + 1) st.queries ∧
    researchedQueries (runIteration env st).1.events =
      researchedQueries st.events ++
        st.queries.enum.map (fun iq => (iq.2, iq.1 + 1, st.queries.length)) ∧
    ∃ r : RunResult, runStream query true m depth inc env = StreamOutcome.completed r ∧
      r.events.getLast? = some (Event.finalizeCompleted r.response) :=
  ⟨runIteration_results env st, runIteration_sources env st,
   runIteration_researched env st,
   runStreamCore query m p.number_of_initial_queries inc env,
   by simp [runStream, hd],
   runStreamCore_last_event query m p.number_of_initial_queries inc env⟩

/-- Closed witness for `failed_query_skipped`: the first of two queries
fails; only the second query's summary is appended, both queries are visited
in order, and the run ends with the terminal event. -/
theorem failed_query_skipped_witness :
    ((runIteration envOneFail stTwoQueries).1.web_research_results =
        stTwoQueries.web_research_results ++
          iterationSummaries envOneFail (stTwoQueries.iteration_count + 1)
            stTwoQueries.queries ∧
      (runIteration envOneFail stTwoQueries).1.sources_gathered =
        stTwoQueries.sources_gathered ++
          iterationSources envOneFail (stTwoQueries.iteration_count + 1)
            stTwoQueries.queries ∧
      researchedQueries (runIteration envOneFail stTwoQueries).1.events =
        researchedQueries stTwoQueries.events ++
          stTwoQueries.queries.enum.map
            (fun iq => (iq.2, iq.1 + 1, stTwoQueries.queries.length)) ∧
      ∃ r : RunResult, runStream "q" true 2 "standard" true envOneFail =
          StreamOutcome.completed r ∧
        r.events.getLast? = some (Event.finalizeCompleted r.response)) ∧
    iterationSummaries envOneFail 1 ["a", "b"] = ["okB"] :=
  ⟨failed_query_skipped envOneFail stTwoQueries "q" 2 "standard" ⟨2, 3⟩ true rfl,
   by decide⟩
